import Mathlib

/-!
Verification of the DeepSentinel AI server core (src/ai_server/face_analyzer.py and
src/ai_server/main.py) against its natural-language specification.

The shallow embedding below models:
  * the geometry metrics `calculate_ear` / `calculate_mar` (face_analyzer.py, lines 47-91),
    with Euclidean pixel distances over `ℝ × ℝ`;
  * the blink tracker state update inlined in `analyze_frame` (face_analyzer.py, lines 188-194);
  * the per-frame metric pipeline `analyze_frame` (face_analyzer.py, lines 155-227);
  * the score aggregator `calculate_overall_score` (main.py, lines 102-133);
  * one iteration of the websocket streaming loop `websocket_analyze` (main.py, lines 352-434)
    as a step function `ws_step`.

External collaborators are modelled as oracle inputs carried by a `Frame`:
the MediaPipe landmark detector (`detection` carries the normalized landmark array or
`none` when no face is found), the head-pose numerical routine of `get_face_angle`
(cv2.solvePnP + Rodrigues + Euler extraction; `pose` carries its angle result, with `none`
modelling an exception raised by the solver), and the cv2 grayscale image statistics
(`brightness_std` for np.std of the gray frame, `laplacian_var` for the Laplacian variance).
Python floats are idealized as real numbers. The decimal rounding applied to the JSON
payload of the websocket response (main.py, lines 408-422) is display formatting and is
not modelled; outbound messages carry the unrounded values.
-/

namespace DeepSentinel

noncomputable section

/-- Euclidean distance between two 2D pixel-space points, as computed by
`np.linalg.norm` on the difference of two coordinate pairs. -/
def pdist (p q : ℝ × ℝ) : ℝ :=
  Real.sqrt ((p.1 - q.1) ^ 2 + (p.2 - q.2) ^ 2)

lemma pdist_nonneg (p q : ℝ × ℝ) : 0 ≤ pdist p q :=
  Real.sqrt_nonneg _

lemma pdist_eq_of_sq (p q : ℝ × ℝ) (d : ℝ) (hd : 0 ≤ d)
    (h : (p.1 - q.1) ^ 2 + (p.2 - q.2) ^ 2 = d ^ 2) : pdist p q = d := by
  rw [pdist, h, Real.sqrt_sq hd]

lemma pdist_translate (p q t : ℝ × ℝ) :
    pdist (p.1 + t.1, p.2 + t.2) (q.1 + t.1, q.2 + t.2) = pdist p q := by
  unfold pdist
  norm_num

/-- Landmark index lists for the two eyes (face_analyzer.py, lines 29-30). -/
def LEFT_EYE_INDICES : List ℕ := [33, 160, 158, 133, 153, 144]

def RIGHT_EYE_INDICES : List ℕ := [362, 385, 387, 263, 373, 380]

/-- Landmark index lists for the lips (face_analyzer.py, lines 33-34). -/
def UPPER_LIP_INDICES : List ℕ := [61, 185, 40, 39, 37, 0, 267, 269, 270, 409, 291]

def LOWER_LIP_INDICES : List ℕ := [146, 91, 181, 84, 17, 314, 405, 321, 375, 291]

/-- Eye Aspect Ratio (face_analyzer.py, lines 47-67): vertical distances between
points 1,5 and 2,4 over twice the horizontal distance between points 0,3. -/
def calculate_ear (eye_landmarks : List (ℝ × ℝ)) : ℝ :=
  let A := pdist (eye_landmarks.getD 1 (0, 0)) (eye_landmarks.getD 5 (0, 0))
  let B := pdist (eye_landmarks.getD 2 (0, 0)) (eye_landmarks.getD 4 (0, 0))
  let C := pdist (eye_landmarks.getD 0 (0, 0)) (eye_landmarks.getD 3 (0, 0))
  (A + B) / (2 * C)

/-- Mouth Aspect Ratio (face_analyzer.py, lines 69-91): three vertical lip distances at
index-aligned positions 2, 5, 8 over three times the corner-to-corner mouth width
(first to last point of the upper lip). -/
def calculate_mar (upper_lip lower_lip : List (ℝ × ℝ)) : ℝ :=
  let A := pdist (upper_lip.getD 2 (0, 0)) (lower_lip.getD 2 (0, 0))
  let B := pdist (upper_lip.getD 5 (0, 0)) (lower_lip.getD 5 (0, 0))
  let C := pdist (upper_lip.getD 8 (0, 0)) (lower_lip.getD 8 (0, 0))
  let D := pdist (upper_lip.getD 0 (0, 0)) (upper_lip.getD (upper_lip.length - 1) (0, 0))
  (A + B + C) / (3 * D)

/-- Head-pose Euler angles in degrees, the result type of `get_face_angle`
(face_analyzer.py, lines 93-153). -/
structure Angles where
  pitch : ℝ
  yaw : ℝ
  roll : ℝ

/-- The six analysis metrics (main.py, lines 36-45, and the dictionary built at
face_analyzer.py, lines 216-227). -/
structure AnalysisMetrics where
  eye_blink_rate : ℝ
  lip_sync_score : ℝ
  lighting_consistency : ℝ
  facial_artifacts : ℝ
  texture_quality : ℝ
  motion_smoothness : ℝ

/-- Per-connection mutable analyzer state (face_analyzer.py, lines 43-45):
previous-frame average EAR, cumulative blink count, cumulative processed-frame count. -/
structure SessionState where
  prev_ear : Option ℝ
  blink_count : ℕ
  frame_count : ℕ

/-- Initial analyzer state, as set by `__init__` and restored by `reset`
(face_analyzer.py, lines 43-45 and 229-235). -/
def initialState : SessionState :=
  { prev_ear := none, blink_count := 0, frame_count := 0 }

/-- The blink-tracking state update performed on every frame with detected landmarks
(face_analyzer.py, lines 188-194): count a blink exactly on the open-or-undefined to
closed transition of the average EAR against the 0.2 threshold, record the current
average EAR, and increment the processed-frame count. -/
def blinkStep (st : SessionState) (avg_ear : ℝ) : SessionState :=
  let blink_count :=
    if avg_ear < 0.2 then
      match st.prev_ear with
      | none => st.blink_count + 1
      | some p => if 0.2 ≤ p then st.blink_count + 1 else st.blink_count
    else st.blink_count
  { prev_ear := some avg_ear, blink_count := blink_count, frame_count := st.frame_count + 1 }

/-- Feed a sequence of per-frame average EAR samples through the blink tracker. -/
def feedEars (st : SessionState) : List ℝ → SessionState
  | [] => st
  | e :: rest => feedEars (blinkStep st e) rest

/-- Blink rate per minute (face_analyzer.py, line 197):
`(blink_count / max(frame_count, 1)) * 60 * 30` under the assumed 30 fps. -/
def blink_rate_of (st : SessionState) : ℝ :=
  ((st.blink_count : ℝ) / ((max st.frame_count 1 : ℕ) : ℝ)) * 60 * 30

/-- One inbound frame, together with the oracle results of the external collaborators
on it: `decode_ok` is whether cv2.imdecode produced an image (main.py, lines 366-370),
`detection` is the MediaPipe landmark output in normalized coordinates
(face_analyzer.py, line 167; `none` means no face), `pose` is the outcome of the
head-pose solver (`none` models an exception raised inside `get_face_angle`), and
`brightness_std` / `laplacian_var` are the grayscale image statistics
(face_analyzer.py, lines 208-213). -/
structure Frame where
  decode_ok : Bool
  detection : Option (ℕ → ℝ × ℝ)
  pose : Option Angles
  brightness_std : ℝ
  laplacian_var : ℝ
  width : ℝ
  height : ℝ

/-- Conversion of normalized landmarks to pixel coordinates
(face_analyzer.py, lines 176-178): multiply x by the image width and y by the height. -/
def frame_landmarks (fr : Frame) (nl : ℕ → ℝ × ℝ) : ℕ → ℝ × ℝ :=
  fun i => ((nl i).1 * fr.width, (nl i).2 * fr.height)

/-- Average of the left and right eye aspect ratios (face_analyzer.py, lines 181-186). -/
def frame_avg_ear (fr : Frame) (nl : ℕ → ℝ × ℝ) : ℝ :=
  (calculate_ear (LEFT_EYE_INDICES.map (frame_landmarks fr nl)) +
   calculate_ear (RIGHT_EYE_INDICES.map (frame_landmarks fr nl))) / 2

/-- Mouth aspect ratio of a frame (face_analyzer.py, lines 200-202). -/
def frame_mar (fr : Frame) (nl : ℕ → ℝ × ℝ) : ℝ :=
  calculate_mar (UPPER_LIP_INDICES.map (frame_landmarks fr nl))
    (LOWER_LIP_INDICES.map (frame_landmarks fr nl))

/-- Outcome of `analyze_frame` on one frame: `noFace` is the early `return None`
(face_analyzer.py, lines 169-170), `exn` models an exception escaping the metric
computation (the head-pose solver call at line 205 is the failure point modelled),
and `metrics` is the returned dictionary (lines 216-227) with its `ear`, `mar` and
`angles` details. -/
inductive AnalyzeOutcome where
  | noFace : AnalyzeOutcome
  | exn : AnalyzeOutcome
  | metrics : AnalysisMetrics → ℝ → ℝ → Angles → AnalyzeOutcome

/-- Single-frame analysis (face_analyzer.py, lines 155-227). Returns the analyzer state
after the frame together with the frame's outcome. The blink-tracking update
(lines 188-194) happens before the head-pose call (line 205), so when the pose solver
raises, the mutated state is kept and the outcome is `exn`. -/
def analyze_frame (st : SessionState) (fr : Frame) : SessionState × AnalyzeOutcome :=
  match fr.detection with
  | none => (st, AnalyzeOutcome.noFace)
  | some nl =>
    let avg_ear := frame_avg_ear fr nl
    let st1 := blinkStep st avg_ear
    let mar := frame_mar fr nl
    match fr.pose with
    | none => (st1, AnalyzeOutcome.exn)
    | some angles =>
      (st1, AnalyzeOutcome.metrics
        { eye_blink_rate := min 100 (blink_rate_of st1)
          lip_sync_score := min 100 ((1 - mar) * 100)
          lighting_consistency := min 100 (max 0 (100 - fr.brightness_std / 2))
          facial_artifacts := max 0 (100 - |angles.yaw| - |angles.pitch|)
          texture_quality := min 100 (fr.laplacian_var / 10)
          motion_smoothness := min 100 (95 - |angles.roll|) }
        avg_ear mar angles)

/-- Weighted sum of the six metrics (main.py, lines 113-120). -/
def weighted_score (m : AnalysisMetrics) : ℝ :=
  m.eye_blink_rate * 0.15 + m.lip_sync_score * 0.25 + m.lighting_consistency * 0.20 +
    (100 - m.facial_artifacts) * 0.25 + m.texture_quality * 0.10 +
    m.motion_smoothness * 0.05

/-- Result label chosen from the score thresholds (main.py, lines 123-130). -/
def result_of_score (score : ℝ) : String :=
  if score ≥ 75 then "real" else if score ≥ 50 then "uncertain" else "fake"

/-- Confidence value chosen from the score thresholds (main.py, lines 123-131). -/
def confidence_of_score (score : ℝ) : ℝ :=
  if score ≥ 75 then min (score / 100) 0.95
  else if score ≥ 50 then 0.5 + (score - 50) / 100
  else min ((100 - score) / 100) 0.95

/-- Overall classification (main.py, lines 102-133): weighted score, then the
threshold-based label and confidence. -/
def calculate_overall_score (m : AnalysisMetrics) : String × ℝ :=
  (result_of_score (weighted_score m), confidence_of_score (weighted_score m))

/-- State of one websocket streaming session (main.py, lines 351-352): the frame-skip
counter and the analyzer's session state. -/
structure WsState where
  frame_skip : ℕ
  analyzer : SessionState

/-- Outbound websocket message kinds (main.py, lines 371-374, 382-386, 402-426,
431-434). `result` carries the label, confidence and unrounded metrics. -/
inductive WsOut where
  | invalidFrame : WsOut
  | noFace : WsOut
  | frameError : WsOut
  | result : String → ℝ → AnalysisMetrics → WsOut

/-- One iteration of the websocket receive loop (main.py, lines 354-434): increment the
frame-skip counter and silently drop odd-numbered frames; on a processed frame, report a
decode failure, the no-face outcome, a caught per-frame exception, or the analysis
result. `none` as the second component means no outbound message was sent. -/
def ws_step (s : WsState) (fr : Frame) : WsState × Option WsOut :=
  let fs := s.frame_skip + 1
  if fs % 2 ≠ 0 then
    ({ frame_skip := fs, analyzer := s.analyzer }, none)
  else if fr.decode_ok = false then
    ({ frame_skip := fs, analyzer := s.analyzer }, some WsOut.invalidFrame)
  else
    match analyze_frame s.analyzer fr with
    | (st1, AnalyzeOutcome.noFace) =>
      ({ frame_skip := fs, analyzer := st1 }, some WsOut.noFace)
    | (st1, AnalyzeOutcome.exn) =>
      ({ frame_skip := fs, analyzer := st1 }, some WsOut.frameError)
    | (st1, AnalyzeOutcome.metrics m _ _ _) =>
      ({ frame_skip := fs, analyzer := st1 },
        some (WsOut.result (calculate_overall_score m).1 (calculate_overall_score m).2 m))

/-! ### Basic lemmas about the blink tracker -/

lemma blinkStep_prev_ear (st : SessionState) (e : ℝ) :
    (blinkStep st e).prev_ear = some e := rfl

lemma blinkStep_frame_count (st : SessionState) (e : ℝ) :
    (blinkStep st e).frame_count = st.frame_count + 1 := rfl

lemma blinkStep_eq_open (st : SessionState) (e : ℝ) (h : ¬ e < 0.2) :
    blinkStep st e = ⟨some e, st.blink_count, st.frame_count + 1⟩ := by
  simp [blinkStep, h]

lemma blinkStep_eq_close_none (st : SessionState) (e : ℝ) (h : e < 0.2)
    (hp : st.prev_ear = none) :
    blinkStep st e = ⟨some e, st.blink_count + 1, st.frame_count + 1⟩ := by
  simp [blinkStep, h, hp]

lemma blinkStep_eq_close_open (st : SessionState) (e p : ℝ) (h : e < 0.2)
    (hp : st.prev_ear = some p) (hge : 0.2 ≤ p) :
    blinkStep st e = ⟨some e, st.blink_count + 1, st.frame_count + 1⟩ := by
  simp [blinkStep, h, hp, hge]

lemma blinkStep_eq_close_closed (st : SessionState) (e p : ℝ) (h : e < 0.2)
    (hp : st.prev_ear = some p) (hlt : ¬ 0.2 ≤ p) :
    blinkStep st e = ⟨some e, st.blink_count, st.frame_count + 1⟩ := by
  simp [blinkStep, h, hp, hlt]

/-! ### Score aggregator lemmas -/

/-- Weighted score exactly as the specification words it (spec section 4.4):
0.15·eye_blink_rate + 0.25·lip_sync_score + 0.20·lighting_consistency +
0.25·(100 − facial_artifacts) + 0.10·texture_quality + 0.05·motion_smoothness. -/
def specScore (m : AnalysisMetrics) : ℝ :=
  0.15 * m.eye_blink_rate + 0.25 * m.lip_sync_score + 0.20 * m.lighting_consistency +
    0.25 * (100 - m.facial_artifacts) + 0.10 * m.texture_quality +
    0.05 * m.motion_smoothness

lemma weighted_score_eq_specScore (m : AnalysisMetrics) :
    weighted_score m = specScore m := by
  unfold weighted_score specScore
  ring

/-! ### Claim C1 -/

/-- C1: `calculate_overall_score` computes the weighted score
0.15·eye_blink_rate + 0.25·lip_sync_score + 0.20·lighting_consistency +
0.25·(100 − facial_artifacts) + 0.10·texture_quality + 0.05·motion_smoothness and
returns label "real" with confidence min(score/100, 0.95) when score ≥ 75, label
"uncertain" with confidence 0.5 + (score − 50)/100 when 50 ≤ score < 75, and label
"fake" with confidence min((100 − score)/100, 0.95) when score < 50. -/
theorem C1_overall_score (m : AnalysisMetrics) :
    (75 ≤ specScore m →
      calculate_overall_score m = ("real", min (specScore m / 100) 0.95)) ∧
    (50 ≤ specScore m ∧ specScore m < 75 →
      calculate_overall_score m = ("uncertain", 0.5 + (specScore m - 50) / 100)) ∧
    (specScore m < 50 →
      calculate_overall_score m = ("fake", min ((100 - specScore m) / 100) 0.95)) := by
  have hs : weighted_score m = specScore m := weighted_score_eq_specScore m
  unfold calculate_overall_score result_of_score confidence_of_score
  rw [hs]
  refine ⟨fun h => ?_, fun h => ?_, fun h => ?_⟩
  · rw [if_pos h, if_pos h]
  · have h75 : ¬ specScore m ≥ 75 := not_le.mpr h.2
    rw [if_neg h75, if_pos h.1, if_neg h75, if_pos h.1]
  · have h75 : ¬ specScore m ≥ 75 := by push_neg; linarith
    have h50 : ¬ specScore m ≥ 50 := not_le.mpr h
    rw [if_neg h75, if_neg h50, if_neg h75, if_neg h50]

/-- Witness for C1 at the specification's own end-to-end example (all metrics 90,
facial_artifacts 10): score = 90, label "real". -/
theorem C1_witness :
    (75 : ℝ) ≤ specScore ⟨90, 90, 90, 10, 90, 90⟩ ∧
    calculate_overall_score ⟨90, 90, 90, 10, 90, 90⟩ =
      ("real", min (specScore ⟨90, 90, 90, 10, 90, 90⟩ / 100) 0.95) := by
  have h : (75 : ℝ) ≤ specScore ⟨90, 90, 90, 10, 90, 90⟩ := by norm_num [specScore]
  exact ⟨h, (C1_overall_score _).1 h⟩

/-! ### Claim C5 -/

/-- C5 counterexample: the confidence at score 75 is 0.75, not 0.95 as the claim
states, and confidence is not monotone non-decreasing in score on [0, 100]: at score 0
(metrics all 0, facial_artifacts 100) it is 0.95, strictly above the 0.5 reached at
score 50. -/
theorem C5_cex :
    (calculate_overall_score ⟨75, 75, 75, 25, 75, 75⟩).2 = 0.75 ∧
    (0.75 : ℝ) ≠ 0.95 ∧
    (calculate_overall_score ⟨0, 0, 0, 100, 0, 0⟩).2 = 0.95 ∧
    (calculate_overall_score ⟨50, 50, 50, 50, 50, 50⟩).2 = 0.5 ∧
    ¬ ((calculate_overall_score ⟨0, 0, 0, 100, 0, 0⟩).2 ≤
        (calculate_overall_score ⟨50, 50, 50, 50, 50, 50⟩).2) := by
  norm_num [calculate_overall_score, weighted_score, confidence_of_score, min_def]

/-- C5 amended: over `calculate_overall_score`, confidence as a function of score lies
in (0, 1], is continuous in value at the two thresholds with confidence(50) = 0.5 and
confidence(75) = 0.75 (the adjoining piecewise formulas agree at both boundaries), and
it is monotone non-decreasing on scores ≥ 50 while monotone non-increasing on scores
≤ 50 (it measures distance from the decision boundary, so it decreases in score on the
"fake" segment). -/
theorem C5_amended (s t : ℝ) (hst : s ≤ t) :
    (0 < confidence_of_score s ∧ confidence_of_score s ≤ 1) ∧
    confidence_of_score 50 = 0.5 ∧
    confidence_of_score 75 = 0.75 ∧
    (0.5 + ((50 : ℝ) - 50) / 100 = min ((100 - (50 : ℝ)) / 100) 0.95) ∧
    (0.5 + ((75 : ℝ) - 50) / 100 = min ((75 : ℝ) / 100) 0.95) ∧
    (50 ≤ s → confidence_of_score s ≤ confidence_of_score t) ∧
    (t ≤ 50 → confidence_of_score t ≤ confidence_of_score s) := by
  refine ⟨⟨?_, ?_⟩, ?_, ?_, by norm_num [min_def], by norm_num [min_def],
    fun h50 => ?_, fun ht => ?_⟩
  · unfold confidence_of_score
    split_ifs <;>
      first
        | exact lt_min (by linarith) (by norm_num)
        | linarith
  · unfold confidence_of_score
    split_ifs <;>
      first
        | exact le_trans (min_le_right _ _) (by norm_num)
        | linarith
  · norm_num [confidence_of_score]
  · norm_num [confidence_of_score, min_def]
  · unfold confidence_of_score
    split_ifs <;>
      first
        | linarith
        | exact min_le_min (by linarith) le_rfl
        | exact le_min (by linarith) (by linarith)
  · unfold confidence_of_score
    split_ifs <;>
      first
        | linarith
        | exact min_le_min (by linarith) le_rfl
        | exact le_min (by linarith) (by linarith)

/-- Witness for C5 amended at the concrete score pair (60, 70). -/
theorem C5_witness :
    (60 : ℝ) ≤ 70 ∧
    ((0 < confidence_of_score 60 ∧ confidence_of_score 60 ≤ 1) ∧
     confidence_of_score 50 = 0.5 ∧
     confidence_of_score 75 = 0.75 ∧
     (0.5 + ((50 : ℝ) - 50) / 100 = min ((100 - (50 : ℝ)) / 100) 0.95) ∧
     (0.5 + ((75 : ℝ) - 50) / 100 = min ((75 : ℝ) / 100) 0.95) ∧
     ((50 : ℝ) ≤ 60 → confidence_of_score 60 ≤ confidence_of_score 70) ∧
     ((70 : ℝ) ≤ 50 → confidence_of_score 70 ≤ confidence_of_score 60)) :=
  ⟨by norm_num, C5_amended 60 70 (by norm_num)⟩

/-! ### Claim C4 -/

/-- C4: on every fed average-EAR sample the blink tracker increments `frame_count` by
one, and it increments `blink_count` exactly when the current average EAR is below 0.2
and the previous average EAR is absent or at least 0.2; feeding the sequence
[0.25, 0.15, 0.10, 0.25, 0.15] from the initial state yields exactly 2 blinks and a
frame count of 5. -/
theorem C4_blink_tracker :
    (∀ (st : SessionState) (e : ℝ),
      (blinkStep st e).frame_count = st.frame_count + 1 ∧
      ((blinkStep st e).blink_count = st.blink_count + 1 ∨
        (blinkStep st e).blink_count = st.blink_count) ∧
      ((blinkStep st e).blink_count = st.blink_count + 1 ↔
        e < 0.2 ∧ (st.prev_ear = none ∨ ∃ p, st.prev_ear = some p ∧ 0.2 ≤ p))) ∧
    (feedEars initialState [0.25, 0.15, 0.10, 0.25, 0.15]).blink_count = 2 ∧
    (feedEars initialState [0.25, 0.15, 0.10, 0.25, 0.15]).frame_count = 5 := by
  have key : feedEars initialState [0.25, 0.15, 0.10, 0.25, 0.15] = ⟨some 0.15, 2, 5⟩ := by
    have e1 : blinkStep (⟨none, 0, 0⟩ : SessionState) 0.25 = ⟨some 0.25, 0, 1⟩ :=
      blinkStep_eq_open _ _ (by norm_num)
    have e2 : blinkStep (⟨some 0.25, 0, 1⟩ : SessionState) 0.15 = ⟨some 0.15, 1, 2⟩ :=
      blinkStep_eq_close_open _ _ 0.25 (by norm_num) rfl (by norm_num)
    have e3 : blinkStep (⟨some 0.15, 1, 2⟩ : SessionState) 0.10 = ⟨some 0.10, 1, 3⟩ :=
      blinkStep_eq_close_closed _ _ 0.15 (by norm_num) rfl (by norm_num)
    have e4 : blinkStep (⟨some 0.10, 1, 3⟩ : SessionState) 0.25 = ⟨some 0.25, 1, 4⟩ :=
      blinkStep_eq_open _ _ (by norm_num)
    have e5 : blinkStep (⟨some 0.25, 1, 4⟩ : SessionState) 0.15 = ⟨some 0.15, 2, 5⟩ :=
      blinkStep_eq_close_open _ _ 0.25 (by norm_num) rfl (by norm_num)
    show feedEars (⟨none, 0, 0⟩ : SessionState) [0.25, 0.15, 0.10, 0.25, 0.15] = _
    rw [feedEars, e1, feedEars, e2, feedEars, e3, feedEars, e4, feedEars, e5, feedEars]
  refine ⟨fun st e => ⟨rfl, ?_⟩, by rw [key], by rw [key]⟩
  rcases hp : st.prev_ear with _ | p
  · by_cases hc : e < 0.2
    · rw [blinkStep_eq_close_none st e hc hp]
      exact ⟨Or.inl rfl, fun _ => ⟨hc, Or.inl rfl⟩, fun _ => rfl⟩
    · rw [blinkStep_eq_open st e hc]
      exact ⟨Or.inr rfl, fun h => absurd h (by simp), fun h => absurd h.1 hc⟩
  · by_cases hc : e < 0.2
    · by_cases hq : 0.2 ≤ p
      · rw [blinkStep_eq_close_open st e p hc hp hq]
        exact ⟨Or.inl rfl, fun _ => ⟨hc, Or.inr ⟨p, rfl, hq⟩⟩, fun _ => rfl⟩
      · rw [blinkStep_eq_close_closed st e p hc hp hq]
        refine ⟨Or.inr rfl, fun h => absurd h (by simp), fun h => ?_⟩
        rcases h.2 with h2 | ⟨q, hq2, hge⟩
        · exact absurd h2 (by simp)
        · cases hq2
          exact absurd hge hq
    · rw [blinkStep_eq_open st e hc]
      exact ⟨Or.inr rfl, fun h => absurd h (by simp), fun h => absurd h.1 hc⟩

/-- Witness for C4's transition rule at a concrete closing sample from the initial
state. -/
theorem C4_witness :
    (blinkStep initialState 0.15).frame_count = initialState.frame_count + 1 ∧
    (blinkStep initialState 0.15).blink_count = initialState.blink_count + 1 :=
  ⟨(C4_blink_tracker.1 initialState 0.15).1,
    ((C4_blink_tracker.1 initialState 0.15).2.2).mpr ⟨by norm_num, Or.inl rfl⟩⟩

/-! ### Claim C9 -/

/-- C9: on an `EyeSample` of 6 points p0..p5, `calculate_ear` returns
(‖p1−p5‖ + ‖p2−p4‖) / (2·‖p0−p3‖); when the horizontal distance ‖p0−p3‖ is positive the
value is non-negative, and it is invariant under adding the same translation vector to
all 6 points. -/
theorem C9_ear (p0 p1 p2 p3 p4 p5 t : ℝ × ℝ) (hC : 0 < pdist p0 p3) :
    calculate_ear [p0, p1, p2, p3, p4, p5] =
      (pdist p1 p5 + pdist p2 p4) / (2 * pdist p0 p3) ∧
    0 ≤ calculate_ear [p0, p1, p2, p3, p4, p5] ∧
    calculate_ear [(p0.1 + t.1, p0.2 + t.2), (p1.1 + t.1, p1.2 + t.2),
        (p2.1 + t.1, p2.2 + t.2), (p3.1 + t.1, p3.2 + t.2),
        (p4.1 + t.1, p4.2 + t.2), (p5.1 + t.1, p5.2 + t.2)] =
      calculate_ear [p0, p1, p2, p3, p4, p5] := by
  have he : calculate_ear [p0, p1, p2, p3, p4, p5] =
      (pdist p1 p5 + pdist p2 p4) / (2 * pdist p0 p3) := rfl
  have ht : calculate_ear [(p0.1 + t.1, p0.2 + t.2), (p1.1 + t.1, p1.2 + t.2),
      (p2.1 + t.1, p2.2 + t.2), (p3.1 + t.1, p3.2 + t.2),
      (p4.1 + t.1, p4.2 + t.2), (p5.1 + t.1, p5.2 + t.2)] =
      (pdist (p1.1 + t.1, p1.2 + t.2) (p5.1 + t.1, p5.2 + t.2) +
        pdist (p2.1 + t.1, p2.2 + t.2) (p4.1 + t.1, p4.2 + t.2)) /
        (2 * pdist (p0.1 + t.1, p0.2 + t.2) (p3.1 + t.1, p3.2 + t.2)) := rfl
  refine ⟨he, ?_, ?_⟩
  · rw [he]
    exact div_nonneg (add_nonneg (pdist_nonneg _ _) (pdist_nonneg _ _))
      (mul_pos (by norm_num) hC).le
  · rw [he, ht, pdist_translate p1 p5 t, pdist_translate p2 p4 t, pdist_translate p0 p3 t]

/-- Witness for C9 at a concrete eye sample with horizontal width 4 and vertical
distances 2, translated by (2, 5). -/
theorem C9_witness :
    0 < pdist ((0 : ℝ), (0 : ℝ)) (4, 0) ∧
    0 ≤ calculate_ear [((0 : ℝ), (0 : ℝ)), (1, 1), (3, 1), (4, 0), (3, -1), (1, -1)] ∧
    calculate_ear [((0 : ℝ), (0 : ℝ)), (1, 1), (3, 1), (4, 0), (3, -1), (1, -1)] = 1 / 2 := by
  have h4 : pdist ((0 : ℝ), (0 : ℝ)) (4, 0) = 4 :=
    pdist_eq_of_sq _ _ 4 (by norm_num) (by norm_num)
  have hA : pdist ((1 : ℝ), (1 : ℝ)) (1, -1) = 2 :=
    pdist_eq_of_sq _ _ 2 (by norm_num) (by norm_num)
  have hB : pdist ((3 : ℝ), (1 : ℝ)) (3, -1) = 2 :=
    pdist_eq_of_sq _ _ 2 (by norm_num) (by norm_num)
  have hC : 0 < pdist ((0 : ℝ), (0 : ℝ)) (4, 0) := by
    rw [h4]; norm_num
  have h := C9_ear (0, 0) (1, 1) (3, 1) (4, 0) (3, -1) (1, -1) (2, 5) hC
  refine ⟨hC, h.2.1, ?_⟩
  rw [h.1, h4, hA, hB]
  norm_num

/-! ### Shape lemmas for `analyze_frame` -/

lemma analyze_frame_eq_noFace (st : SessionState) (fr : Frame)
    (hd : fr.detection = none) :
    analyze_frame st fr = (st, AnalyzeOutcome.noFace) := by
  unfold analyze_frame
  rw [hd]

lemma analyze_frame_eq_exn (st : SessionState) (fr : Frame) (nl : ℕ → ℝ × ℝ)
    (hd : fr.detection = some nl) (hp : fr.pose = none) :
    analyze_frame st fr = (blinkStep st (frame_avg_ear fr nl), AnalyzeOutcome.exn) := by
  unfold analyze_frame
  rw [hd, hp]

lemma analyze_frame_eq_metrics (st : SessionState) (fr : Frame) (nl : ℕ → ℝ × ℝ)
    (a : Angles) (hd : fr.detection = some nl) (hp : fr.pose = some a) :
    analyze_frame st fr =
      (blinkStep st (frame_avg_ear fr nl),
        AnalyzeOutcome.metrics
          { eye_blink_rate := min 100 (blink_rate_of (blinkStep st (frame_avg_ear fr nl)))
            lip_sync_score := min 100 ((1 - frame_mar fr nl) * 100)
            lighting_consistency := min 100 (max 0 (100 - fr.brightness_std / 2))
            facial_artifacts := max 0 (100 - |a.yaw| - |a.pitch|)
            texture_quality := min 100 (fr.laplacian_var / 10)
            motion_smoothness := min 100 (95 - |a.roll|) }
          (frame_avg_ear fr nl) (frame_mar fr nl) a) := by
  unfold analyze_frame
  rw [hd, hp]

lemma analyze_frame_metrics_inv (st st' : SessionState) (fr : Frame)
    (m : AnalysisMetrics) (ear mr : ℝ) (a : Angles)
    (h : analyze_frame st fr = (st', AnalyzeOutcome.metrics m ear mr a)) :
    ∃ nl, fr.detection = some nl ∧ fr.pose = some a ∧
      st' = blinkStep st (frame_avg_ear fr nl) ∧
      ear = frame_avg_ear fr nl ∧ mr = frame_mar fr nl ∧
      m = { eye_blink_rate := min 100 (blink_rate_of (blinkStep st (frame_avg_ear fr nl)))
            lip_sync_score := min 100 ((1 - frame_mar fr nl) * 100)
            lighting_consistency := min 100 (max 0 (100 - fr.brightness_std / 2))
            facial_artifacts := max 0 (100 - |a.yaw| - |a.pitch|)
            texture_quality := min 100 (fr.laplacian_var / 10)
            motion_smoothness := min 100 (95 - |a.roll|) } := by
  rcases hd : fr.detection with _ | nl
  · rw [analyze_frame_eq_noFace st fr hd] at h
    exact absurd (congrArg Prod.snd h) (by simp)
  · rcases hp : fr.pose with _ | a'
    · rw [analyze_frame_eq_exn st fr nl hd hp] at h
      exact absurd (congrArg Prod.snd h) (by simp)
    · rw [analyze_frame_eq_metrics st fr nl a' hd hp] at h
      injection h with h1 h2
      injection h2 with hm he hmr ha
      subst ha
      exact ⟨nl, rfl, rfl, h1.symm, he.symm, hmr.symm, hm.symm⟩

/-! ### Lemmas about one websocket step -/

lemma ws_step_dropped (s : WsState) (fr : Frame) (h : (s.frame_skip + 1) % 2 = 1) :
    ws_step s fr = ({ frame_skip := s.frame_skip + 1, analyzer := s.analyzer }, none) := by
  simp [ws_step, h]

lemma ws_step_processed_out (s : WsState) (fr : Frame)
    (h : (s.frame_skip + 1) % 2 = 0) : (ws_step s fr).2 ≠ none := by
  rcases ha : analyze_frame s.analyzer fr with ⟨st1, out⟩
  rcases hdk : fr.decode_ok with _ | _
  · simp [ws_step, h, hdk]
  · cases out <;> simp [ws_step, h, hdk, ha]

lemma ws_step_frame_skip (s : WsState) (fr : Frame) :
    (ws_step s fr).1.frame_skip = s.frame_skip + 1 := by
  rcases h : (s.frame_skip + 1) % 2 with _ | n
  · rcases ha : analyze_frame s.analyzer fr with ⟨st1, out⟩
    rcases hdk : fr.decode_ok with _ | _
    · simp [ws_step, h, hdk]
    · cases out <;> simp [ws_step, h, hdk, ha]
  · have h1 : (s.frame_skip + 1) % 2 = 1 := by omega
    rw [ws_step_dropped s fr h1]

/-! ### Claim C7 -/

/-- C7: of any two consecutive inbound frames in an active session, exactly one is
processed and one is silently dropped, determined by the parity of the frame-skip
counter after increment (odd counter means dropped); a dropped frame produces no
outbound message and leaves the analyzer's `SessionState` unchanged. -/
theorem C7_frame_skip (s : WsState) (f1 f2 : Frame) :
    ((s.frame_skip + 1) % 2 = 1 →
      (ws_step s f1).2 = none ∧ (ws_step s f1).1.analyzer = s.analyzer ∧
      (ws_step (ws_step s f1).1 f2).2 ≠ none) ∧
    ((s.frame_skip + 1) % 2 = 0 →
      (ws_step s f1).2 ≠ none ∧ (ws_step (ws_step s f1).1 f2).2 = none ∧
      (ws_step (ws_step s f1).1 f2).1.analyzer = (ws_step s f1).1.analyzer) ∧
    ((ws_step s f1).2 = none ↔ (ws_step (ws_step s f1).1 f2).2 ≠ none) := by
  have hfs := ws_step_frame_skip s f1
  refine ⟨fun h1 => ?_, fun h0 => ?_, ?_⟩
  · rw [ws_step_dropped s f1 h1]
    refine ⟨rfl, rfl, ?_⟩
    exact ws_step_processed_out _ f2 (by simp only []; omega)
  · refine ⟨ws_step_processed_out s f1 h0, ?_, ?_⟩
    · rw [ws_step_dropped _ f2 (by rw [hfs]; omega)]
    · rw [ws_step_dropped _ f2 (by rw [hfs]; omega)]
  · rcases Nat.mod_two_eq_zero_or_one (s.frame_skip + 1) with h | h
    · constructor
      · intro hn
        exact absurd hn (ws_step_processed_out s f1 h)
      · intro hnn
        exact absurd (by rw [ws_step_dropped _ f2 (by rw [hfs]; omega)]) hnn
    · constructor
      · intro _
        exact ws_step_processed_out _ f2 (by rw [hfs]; omega)
      · intro _
        rw [ws_step_dropped s f1 h]

/-- A decodable frame on which the landmark detector finds no face. -/
def noFaceFrame : Frame :=
  { decode_ok := true, detection := none, pose := none,
    brightness_std := 0, laplacian_var := 0, width := 1, height := 1 }

/-- Witness for C7 at a fresh session (frame-skip counter 0) fed two frames: the
first is dropped without touching the analyzer state, the second produces a message. -/
theorem C7_witness :
    ((⟨0, initialState⟩ : WsState).frame_skip + 1) % 2 = 1 ∧
    (ws_step ⟨0, initialState⟩ noFaceFrame).2 = none ∧
    (ws_step ⟨0, initialState⟩ noFaceFrame).1.analyzer =
      (⟨0, initialState⟩ : WsState).analyzer ∧
    (ws_step (ws_step ⟨0, initialState⟩ noFaceFrame).1 noFaceFrame).2 ≠ none := by
  have h := (C7_frame_skip ⟨0, initialState⟩ noFaceFrame noFaceFrame).1 rfl
  exact ⟨rfl, h.1, h.2.1, h.2.2⟩

/-! ### Claim C8 -/

/-- C8: on a processed frame with no detected landmarks, `analyze_frame` returns the
no-face outcome without touching the session state, and the websocket step emits the
no-face message while keeping the analyzer state unchanged. -/
theorem C8_no_face (st : SessionState) (s : WsState) (fr : Frame)
    (hd : fr.detection = none) :
    analyze_frame st fr = (st, AnalyzeOutcome.noFace) ∧
    ((s.frame_skip + 1) % 2 = 0 → fr.decode_ok = true →
      ws_step s fr = ({ frame_skip := s.frame_skip + 1, analyzer := s.analyzer },
        some WsOut.noFace)) := by
  refine ⟨analyze_frame_eq_noFace st fr hd, fun h0 hdec => ?_⟩
  have ha := analyze_frame_eq_noFace s.analyzer fr hd
  simp [ws_step, h0, hdec, ha]

/-- Witness for C8: a no-face frame fed to a session whose counter makes it a
processed frame. -/
theorem C8_witness :
    noFaceFrame.detection = none ∧
    analyze_frame initialState noFaceFrame = (initialState, AnalyzeOutcome.noFace) ∧
    ws_step ⟨1, initialState⟩ noFaceFrame =
      ({ frame_skip := 2, analyzer := initialState }, some WsOut.noFace) := by
  have h := C8_no_face initialState ⟨1, initialState⟩ noFaceFrame rfl
  exact ⟨rfl, h.1, h.2 rfl rfl⟩

/-! ### Concrete landmark configurations for counterexamples and witnesses

Both configurations give each eye an aspect ratio of 1/2 (vertical distances 1,
horizontal width 2). `cexPts1` opens the mouth far beyond its width (vertical lip
distances 6 against mouth width 1, so the mouth aspect ratio is 6); `cexPts2` keeps
the lips closed (mouth aspect ratio 0). -/

def cexPts1 : ℕ → ℝ × ℝ := fun i =>
  if i = 133 ∨ i = 263 then (2, 0)
  else if i = 160 ∨ i = 158 ∨ i = 385 ∨ i = 387 then (1, 1)
  else if i = 144 ∨ i = 153 ∨ i = 380 ∨ i = 373 ∨ i = 291 then (1, 0)
  else if i = 181 ∨ i = 314 ∨ i = 375 then (0, 6)
  else (0, 0)

def cexPts2 : ℕ → ℝ × ℝ := fun i =>
  if i = 133 ∨ i = 263 then (2, 0)
  else if i = 160 ∨ i = 158 ∨ i = 385 ∨ i = 387 then (1, 1)
  else if i = 144 ∨ i = 153 ∨ i = 380 ∨ i = 373 ∨ i = 291 then (1, 0)
  else (0, 0)

/-- A decodable 1×1-scaled frame with landmarks `cexPts1` and a successful head-pose
solve returning all-zero angles. -/
def cexFrame1 : Frame :=
  { decode_ok := true, detection := some cexPts1, pose := some ⟨0, 0, 0⟩,
    brightness_std := 0, laplacian_var := 0, width := 1, height := 1 }

/-- A decodable frame with landmarks `cexPts2` and a head pose rolled by 120 degrees. -/
def cexFrame2 : Frame :=
  { decode_ok := true, detection := some cexPts2, pose := some ⟨0, 0, 120⟩,
    brightness_std := 0, laplacian_var := 0, width := 1, height := 1 }

/-- A decodable frame with landmarks `cexPts1` on which the head-pose solver raises. -/
def cexFrame3 : Frame :=
  { decode_ok := true, detection := some cexPts1, pose := none,
    brightness_std := 0, laplacian_var := 0, width := 1, height := 1 }

lemma frame_landmarks_unit (fr : Frame) (nl : ℕ → ℝ × ℝ) (hw : fr.width = 1)
    (hh : fr.height = 1) : frame_landmarks fr nl = nl := by
  funext i
  simp [frame_landmarks, hw, hh]

lemma map_left_cex1 : LEFT_EYE_INDICES.map cexPts1 =
    [((0 : ℝ), (0 : ℝ)), (1, 1), (1, 1), (2, 0), (1, 0), (1, 0)] := by
  norm_num [LEFT_EYE_INDICES, cexPts1]

lemma map_right_cex1 : RIGHT_EYE_INDICES.map cexPts1 =
    [((0 : ℝ), (0 : ℝ)), (1, 1), (1, 1), (2, 0), (1, 0), (1, 0)] := by
  norm_num [RIGHT_EYE_INDICES, cexPts1]

lemma map_left_cex2 : LEFT_EYE_INDICES.map cexPts2 =
    [((0 : ℝ), (0 : ℝ)), (1, 1), (1, 1), (2, 0), (1, 0), (1, 0)] := by
  norm_num [LEFT_EYE_INDICES, cexPts2]

lemma map_right_cex2 : RIGHT_EYE_INDICES.map cexPts2 =
    [((0 : ℝ), (0 : ℝ)), (1, 1), (1, 1), (2, 0), (1, 0), (1, 0)] := by
  norm_num [RIGHT_EYE_INDICES, cexPts2]

lemma map_upper_cex1 : UPPER_LIP_INDICES.map cexPts1 =
    [((0 : ℝ), (0 : ℝ)), (0, 0), (0, 0), (0, 0), (0, 0), (0, 0), (0, 0), (0, 0),
      (0, 0), (0, 0), (1, 0)] := by
  norm_num [UPPER_LIP_INDICES, cexPts1]

lemma map_lower_cex1 : LOWER_LIP_INDICES.map cexPts1 =
    [((0 : ℝ), (0 : ℝ)), (0, 0), (0, 6), (0, 0), (0, 0), (0, 6), (0, 0), (0, 0),
      (0, 6), (1, 0)] := by
  norm_num [LOWER_LIP_INDICES, cexPts1]

lemma map_upper_cex2 : UPPER_LIP_INDICES.map cexPts2 =
    [((0 : ℝ), (0 : ℝ)), (0, 0), (0, 0), (0, 0), (0, 0), (0, 0), (0, 0), (0, 0),
      (0, 0), (0, 0), (1, 0)] := by
  norm_num [UPPER_LIP_INDICES, cexPts2]

lemma map_lower_cex2 : LOWER_LIP_INDICES.map cexPts2 =
    [((0 : ℝ), (0 : ℝ)), (0, 0), (0, 0), (0, 0), (0, 0), (0, 0), (0, 0), (0, 0),
      (0, 0), (1, 0)] := by
  norm_num [LOWER_LIP_INDICES, cexPts2]

lemma calculate_ear_cex_eye :
    calculate_ear [((0 : ℝ), (0 : ℝ)), (1, 1), (1, 1), (2, 0), (1, 0), (1, 0)] = 1 / 2 := by
  have h1 : pdist ((1 : ℝ), (1 : ℝ)) ((1 : ℝ), (0 : ℝ)) = 1 :=
    pdist_eq_of_sq _ _ 1 (by norm_num) (by norm_num)
  have h2 : pdist ((0 : ℝ), (0 : ℝ)) ((2 : ℝ), (0 : ℝ)) = 2 :=
    pdist_eq_of_sq _ _ 2 (by norm_num) (by norm_num)
  unfold calculate_ear
  simp only [List.getD_cons_zero, List.getD_cons_succ]
  rw [h1, h2]
  norm_num

lemma calculate_mar_cex1 :
    calculate_mar
      [((0 : ℝ), (0 : ℝ)), (0, 0), (0, 0), (0, 0), (0, 0), (0, 0), (0, 0), (0, 0),
        (0, 0), (0, 0), (1, 0)]
      [((0 : ℝ), (0 : ℝ)), (0, 0), (0, 6), (0, 0), (0, 0), (0, 6), (0, 0), (0, 0),
        (0, 6), (1, 0)] = 6 := by
  have h6 : pdist ((0 : ℝ), (0 : ℝ)) ((0 : ℝ), (6 : ℝ)) = 6 :=
    pdist_eq_of_sq _ _ 6 (by norm_num) (by norm_num)
  have h1 : pdist ((0 : ℝ), (0 : ℝ)) ((1 : ℝ), (0 : ℝ)) = 1 :=
    pdist_eq_of_sq _ _ 1 (by norm_num) (by norm_num)
  unfold calculate_mar
  simp only [List.getD_cons_zero, List.getD_cons_succ, List.length_cons, List.length_nil]
  rw [h6, h1]
  norm_num

lemma calculate_mar_cex2 :
    calculate_mar
      [((0 : ℝ), (0 : ℝ)), (0, 0), (0, 0), (0, 0), (0, 0), (0, 0), (0, 0), (0, 0),
        (0, 0), (0, 0), (1, 0)]
      [((0 : ℝ), (0 : ℝ)), (0, 0), (0, 0), (0, 0), (0, 0), (0, 0), (0, 0), (0, 0),
        (0, 0), (1, 0)] = 0 := by
  have h0 : pdist ((0 : ℝ), (0 : ℝ)) ((0 : ℝ), (0 : ℝ)) = 0 :=
    pdist_eq_of_sq _ _ 0 (by norm_num) (by norm_num)
  have h1 : pdist ((0 : ℝ), (0 : ℝ)) ((1 : ℝ), (0 : ℝ)) = 1 :=
    pdist_eq_of_sq _ _ 1 (by norm_num) (by norm_num)
  unfold calculate_mar
  simp only [List.getD_cons_zero, List.getD_cons_succ, List.length_cons, List.length_nil]
  rw [h0, h1]
  norm_num

lemma frame_avg_ear_cexPts1 (fr : Frame) (hw : fr.width = 1) (hh : fr.height = 1) :
    frame_avg_ear fr cexPts1 = 1 / 2 := by
  unfold frame_avg_ear
  rw [frame_landmarks_unit fr cexPts1 hw hh, map_left_cex1, map_right_cex1,
    calculate_ear_cex_eye]
  norm_num

lemma frame_avg_ear_cexPts2 (fr : Frame) (hw : fr.width = 1) (hh : fr.height = 1) :
    frame_avg_ear fr cexPts2 = 1 / 2 := by
  unfold frame_avg_ear
  rw [frame_landmarks_unit fr cexPts2 hw hh, map_left_cex2, map_right_cex2,
    calculate_ear_cex_eye]
  norm_num

lemma frame_mar_cexPts1 (fr : Frame) (hw : fr.width = 1) (hh : fr.height = 1) :
    frame_mar fr cexPts1 = 6 := by
  unfold frame_mar
  rw [frame_landmarks_unit fr cexPts1 hw hh, map_upper_cex1, map_lower_cex1,
    calculate_mar_cex1]

lemma frame_mar_cexPts2 (fr : Frame) (hw : fr.width = 1) (hh : fr.height = 1) :
    frame_mar fr cexPts2 = 0 := by
  unfold frame_mar
  rw [frame_landmarks_unit fr cexPts2 hw hh, map_upper_cex2, map_lower_cex2,
    calculate_mar_cex2]

lemma blink_rate_of_nonneg (st : SessionState) : 0 ≤ blink_rate_of st := by
  unfold blink_rate_of
  positivity

/-! ### Full evaluations of `analyze_frame` on the concrete frames -/

lemma analyze_cex1 :
    analyze_frame initialState cexFrame1 =
      (⟨some (1 / 2), 0, 1⟩,
        AnalyzeOutcome.metrics ⟨0, -500, 100, 100, 0, 95⟩ (1 / 2) 6 ⟨0, 0, 0⟩) := by
  rw [analyze_frame_eq_metrics initialState cexFrame1 cexPts1 ⟨0, 0, 0⟩ rfl rfl]
  rw [frame_avg_ear_cexPts1 cexFrame1 rfl rfl, frame_mar_cexPts1 cexFrame1 rfl rfl]
  rw [blinkStep_eq_open initialState (1 / 2) (by norm_num)]
  norm_num [initialState, cexFrame1, blink_rate_of, Prod.ext_iff,
    SessionState.mk.injEq, AnalysisMetrics.mk.injEq, AnalyzeOutcome.metrics.injEq,
    min_def, max_def]

lemma analyze_cex2 :
    analyze_frame initialState cexFrame2 =
      (⟨some (1 / 2), 0, 1⟩,
        AnalyzeOutcome.metrics ⟨0, 100, 100, 100, 0, -25⟩ (1 / 2) 0 ⟨0, 0, 120⟩) := by
  rw [analyze_frame_eq_metrics initialState cexFrame2 cexPts2 ⟨0, 0, 120⟩ rfl rfl]
  rw [frame_avg_ear_cexPts2 cexFrame2 rfl rfl, frame_mar_cexPts2 cexFrame2 rfl rfl]
  rw [blinkStep_eq_open initialState (1 / 2) (by norm_num)]
  norm_num [initialState, cexFrame2, blink_rate_of, Prod.ext_iff,
    SessionState.mk.injEq, AnalysisMetrics.mk.injEq, AnalyzeOutcome.metrics.injEq,
    min_def, max_def]

lemma analyze_cex3 :
    analyze_frame initialState cexFrame3 = (⟨some (1 / 2), 0, 1⟩, AnalyzeOutcome.exn) := by
  rw [analyze_frame_eq_exn initialState cexFrame3 cexPts1 rfl rfl]
  rw [frame_avg_ear_cexPts1 cexFrame3 rfl rfl]
  rw [blinkStep_eq_open initialState (1 / 2) (by norm_num)]
  rfl

/-! ### Claim C2 -/

/-- C2 counterexample: on `cexFrame2` (head roll 120 degrees) `analyze_frame` produces
a Metrics value whose `motion_smoothness` is −25, outside [0, 100]: the code computes
min(100, 95 − |roll|) with no lower clamp. -/
theorem C2_cex :
    analyze_frame initialState cexFrame2 =
      (⟨some (1 / 2), 0, 1⟩,
        AnalyzeOutcome.metrics ⟨0, 100, 100, 100, 0, -25⟩ (1 / 2) 0 ⟨0, 0, 120⟩) ∧
    ¬ (0 ≤ (⟨0, 100, 100, 100, 0, -25⟩ : AnalysisMetrics).motion_smoothness) :=
  ⟨analyze_cex2, by norm_num⟩

/-- C2 amended: whenever `analyze_frame` returns a Metrics value (and the Laplacian
variance oracle is non-negative, as a variance is), the fields `eye_blink_rate`,
`lighting_consistency`, `facial_artifacts` and `texture_quality` lie in [0, 100],
while `lip_sync_score` and `motion_smoothness` are only bounded above by 100 — they
carry no lower clamp and can be negative. -/
theorem C2_metrics_range (st st' : SessionState) (fr : Frame) (m : AnalysisMetrics)
    (ear mr : ℝ) (a : Angles)
    (h : analyze_frame st fr = (st', AnalyzeOutcome.metrics m ear mr a))
    (hlap : 0 ≤ fr.laplacian_var) :
    (0 ≤ m.eye_blink_rate ∧ m.eye_blink_rate ≤ 100) ∧
    m.lip_sync_score ≤ 100 ∧
    (0 ≤ m.lighting_consistency ∧ m.lighting_consistency ≤ 100) ∧
    (0 ≤ m.facial_artifacts ∧ m.facial_artifacts ≤ 100) ∧
    (0 ≤ m.texture_quality ∧ m.texture_quality ≤ 100) ∧
    m.motion_smoothness ≤ 100 := by
  obtain ⟨nl, -, -, -, -, -, hm⟩ := analyze_frame_metrics_inv st st' fr m ear mr a h
  subst hm
  refine ⟨⟨le_min (by norm_num) (blink_rate_of_nonneg _), min_le_left _ _⟩,
    min_le_left _ _,
    ⟨le_min (by norm_num) (le_max_left _ _), min_le_left _ _⟩,
    ⟨le_max_left _ _, max_le (by norm_num) ?_⟩,
    ⟨le_min (by norm_num) (div_nonneg hlap (by norm_num)), min_le_left _ _⟩,
    min_le_left _ _⟩
  linarith [abs_nonneg a.yaw, abs_nonneg a.pitch]

/-- Witness for C2 amended at the concrete frame `cexFrame1`. -/
theorem C2_witness :
    analyze_frame initialState cexFrame1 =
      (⟨some (1 / 2), 0, 1⟩,
        AnalyzeOutcome.metrics ⟨0, -500, 100, 100, 0, 95⟩ (1 / 2) 6 ⟨0, 0, 0⟩) ∧
    0 ≤ cexFrame1.laplacian_var ∧
    ((0 ≤ (0 : ℝ) ∧ (0 : ℝ) ≤ 100) ∧ ((-500 : ℝ) ≤ 100) ∧
      (0 ≤ (100 : ℝ) ∧ (100 : ℝ) ≤ 100) ∧ (0 ≤ (100 : ℝ) ∧ (100 : ℝ) ≤ 100) ∧
      (0 ≤ (0 : ℝ) ∧ (0 : ℝ) ≤ 100) ∧ ((95 : ℝ) ≤ 100)) :=
  ⟨analyze_cex1, le_refl 0,
    C2_metrics_range initialState _ cexFrame1 _ _ _ _ analyze_cex1 (le_refl 0)⟩

/-! ### Claim C6 -/

/-- C6 counterexample: on `cexFrame1` the mouth aspect ratio is 6 > 1 and the produced
`lip_sync_score` is −500, which is negative and differs from the spec's claimed
clamp(100·(1−MAR), 0, 100) = 0. -/
theorem C6_cex :
    analyze_frame initialState cexFrame1 =
      (⟨some (1 / 2), 0, 1⟩,
        AnalyzeOutcome.metrics ⟨0, -500, 100, 100, 0, 95⟩ (1 / 2) 6 ⟨0, 0, 0⟩) ∧
    (1 : ℝ) < 6 ∧
    (⟨0, -500, 100, 100, 0, 95⟩ : AnalysisMetrics).lip_sync_score < 0 ∧
    min (100 : ℝ) (max 0 ((1 - 6) * 100)) ≠
      (⟨0, -500, 100, 100, 0, 95⟩ : AnalysisMetrics).lip_sync_score :=
  ⟨analyze_cex1, by norm_num, by norm_num, by norm_num [min_def, max_def]⟩

/-- C6 amended: whenever `analyze_frame` returns a Metrics value, `lip_sync_score`
equals min(100, (1 − MAR)·100) for the MAR computed by `calculate_mar` on that frame's
lip landmarks; it is at most 100, and it is negative whenever MAR > 1 (there is no
lower clamp at 0). -/
theorem C6_lip_sync (st st' : SessionState) (fr : Frame) (m : AnalysisMetrics)
    (ear mr : ℝ) (a : Angles)
    (h : analyze_frame st fr = (st', AnalyzeOutcome.metrics m ear mr a)) :
    (∃ nl, fr.detection = some nl ∧ mr = frame_mar fr nl) ∧
    m.lip_sync_score = min 100 ((1 - mr) * 100) ∧
    m.lip_sync_score ≤ 100 ∧
    (1 < mr → m.lip_sync_score < 0) := by
  obtain ⟨nl, hd, -, -, -, hmr, hm⟩ := analyze_frame_metrics_inv st st' fr m ear mr a h
  subst hm
  subst hmr
  refine ⟨⟨nl, hd, rfl⟩, rfl, min_le_left _ _, fun h1 => ?_⟩
  exact lt_of_le_of_lt (min_le_right _ _) (by nlinarith)

/-- Witness for C6 amended at the concrete frame `cexFrame2` (closed mouth, MAR 0). -/
theorem C6_witness :
    analyze_frame initialState cexFrame2 =
      (⟨some (1 / 2), 0, 1⟩,
        AnalyzeOutcome.metrics ⟨0, 100, 100, 100, 0, -25⟩ (1 / 2) 0 ⟨0, 0, 120⟩) ∧
    ((∃ nl, cexFrame2.detection = some nl ∧ (0 : ℝ) = frame_mar cexFrame2 nl) ∧
      (⟨0, 100, 100, 100, 0, -25⟩ : AnalysisMetrics).lip_sync_score =
        min 100 ((1 - (0 : ℝ)) * 100) ∧
      (⟨0, 100, 100, 100, 0, -25⟩ : AnalysisMetrics).lip_sync_score ≤ 100 ∧
      ((1 : ℝ) < 0 →
        (⟨0, 100, 100, 100, 0, -25⟩ : AnalysisMetrics).lip_sync_score < 0)) :=
  ⟨analyze_cex2, C6_lip_sync initialState _ cexFrame2 _ _ _ _ analyze_cex2⟩

/-! ### Claim C10 -/

/-- C10: whenever `analyze_frame` returns a Metrics value, `facial_artifacts` equals
max(0, 100 − |yaw| − |pitch|) for the head-pose angles of that frame, and therefore
lies in [0, 100]. -/
theorem C10_facial_artifacts (st st' : SessionState) (fr : Frame) (m : AnalysisMetrics)
    (ear mr : ℝ) (a : Angles)
    (h : analyze_frame st fr = (st', AnalyzeOutcome.metrics m ear mr a)) :
    fr.pose = some a ∧
    m.facial_artifacts = max 0 (100 - |a.yaw| - |a.pitch|) ∧
    0 ≤ m.facial_artifacts ∧ m.facial_artifacts ≤ 100 := by
  obtain ⟨nl, -, hp, -, -, -, hm⟩ := analyze_frame_metrics_inv st st' fr m ear mr a h
  subst hm
  refine ⟨hp, rfl, le_max_left _ _, max_le (by norm_num) ?_⟩
  linarith [abs_nonneg a.yaw, abs_nonneg a.pitch]

/-- Witness for C10 at the concrete frame `cexFrame2`. -/
theorem C10_witness :
    analyze_frame initialState cexFrame2 =
      (⟨some (1 / 2), 0, 1⟩,
        AnalyzeOutcome.metrics ⟨0, 100, 100, 100, 0, -25⟩ (1 / 2) 0 ⟨0, 0, 120⟩) ∧
    (cexFrame2.pose = some ⟨0, 0, 120⟩ ∧
      (⟨0, 100, 100, 100, 0, -25⟩ : AnalysisMetrics).facial_artifacts =
        max 0 (100 - |(0 : ℝ)| - |(0 : ℝ)|) ∧
      0 ≤ (⟨0, 100, 100, 100, 0, -25⟩ : AnalysisMetrics).facial_artifacts ∧
      (⟨0, 100, 100, 100, 0, -25⟩ : AnalysisMetrics).facial_artifacts ≤ 100) :=
  ⟨analyze_cex2, C10_facial_artifacts initialState _ cexFrame2 _ _ _ _ analyze_cex2⟩

/-! ### Claim C3 -/

/-- C3 counterexample: on `cexFrame3` (landmarks detected, head-pose solver raises)
the exception escapes the metric computation, yet the session state has been changed:
the frame was counted and the previous EAR recorded before the failure point. -/
theorem C3_cex :
    (analyze_frame initialState cexFrame3).2 = AnalyzeOutcome.exn ∧
    (analyze_frame initialState cexFrame3).1 ≠ initialState := by
  rw [analyze_cex3]
  refine ⟨rfl, fun hcon => ?_⟩
  have h := congrArg SessionState.frame_count hcon
  simp [initialState] at h

/-- C3 amended: an exception during metric computation after landmark detection is
caught at the frame boundary, a per-frame error message is emitted and the session
continues, but the SessionState is not left unmodified: the blink-tracking update
(which precedes the head-pose call) has already recorded the frame's average EAR and
incremented `frame_count`. -/
theorem C3_exn_state (s : WsState) (fr : Frame) (nl : ℕ → ℝ × ℝ)
    (hpar : (s.frame_skip + 1) % 2 = 0) (hdec : fr.decode_ok = true)
    (hd : fr.detection = some nl) (hp : fr.pose = none) :
    ws_step s fr = (⟨s.frame_skip + 1, blinkStep s.analyzer (frame_avg_ear fr nl)⟩,
      some WsOut.frameError) ∧
    (ws_step s fr).1.analyzer.frame_count = s.analyzer.frame_count + 1 := by
  have ha := analyze_frame_eq_exn s.analyzer fr nl hd hp
  have heq : ws_step s fr =
      (⟨s.frame_skip + 1, blinkStep s.analyzer (frame_avg_ear fr nl)⟩,
        some WsOut.frameError) := by
    simp [ws_step, hpar, hdec, ha]
  refine ⟨heq, ?_⟩
  rw [heq]
  rfl

/-- Witness for C3 amended at the concrete frame `cexFrame3`. -/
theorem C3_witness :
    ((⟨1, initialState⟩ : WsState).frame_skip + 1) % 2 = 0 ∧
    cexFrame3.decode_ok = true ∧ cexFrame3.detection = some cexPts1 ∧
    cexFrame3.pose = none ∧
    (ws_step ⟨1, initialState⟩ cexFrame3 =
      (⟨2, blinkStep initialState (frame_avg_ear cexFrame3 cexPts1)⟩,
        some WsOut.frameError) ∧
    (ws_step ⟨1, initialState⟩ cexFrame3).1.analyzer.frame_count =
      (⟨1, initialState⟩ : WsState).analyzer.frame_count + 1) :=
  ⟨rfl, rfl, rfl, rfl, C3_exn_state ⟨1, initialState⟩ cexFrame3 cexPts1 rfl rfl rfl rfl⟩

end

end DeepSentinel
